import Mathlib

/-!
Verification of the stock-analysis pipeline (indicator computation and
decision pipeline).

The Python source is shallowly embedded: prices are modelled as rationals
(`ℚ`, an idealisation of IEEE floats), pandas series as `List ℚ`, nullable
values (`None`/`NaN`) as `Option`, and the pipeline state dictionary as a
structure of `Option` fields.  The wall-clock timestamp used by the report
stage is passed in explicitly as a string argument.  Each definition below
mirrors one function of `src/components/indicators.py`,
`src/components/nodes.py` or `src/graph.py`.
-/

/-- Python `sep.join(xs)`. -/
def join_sep (sep : String) : List String → String
  | [] => ""
  | [x] => x
  | x :: y :: xs => x ++ sep ++ join_sep sep (y :: xs)

/-- Insert a comma after every third character; the input is the reversed
digit list, so this realises thousands grouping. -/
def group3 : List Char → List Char
  | a :: b :: c :: d :: rest => a :: b :: c :: ',' :: group3 (d :: rest)
  | l => l

/-- Decimal digits of `n` with thousands separators, as in Python `f"{n:,}"`
for a natural number. -/
def comma_group (n : ℕ) : String :=
  String.mk (group3 (Nat.toDigits 10 n).reverse).reverse

/-- Round a rational to the nearest integer, ties to even — the rounding
used by Python float formatting. -/
def rhe (q : ℚ) : ℤ :=
  let f := ⌊q⌋
  if q - f < 1/2 then f
  else if (1:ℚ)/2 < q - f then f + 1
  else if f % 2 = 0 then f else f + 1

/-- Left-pad a two-digit fractional part, e.g. `7 ↦ "07"`. -/
def pad2 (n : ℕ) : String := (if n < 10 then "0" else "") ++ toString n

/-- Python `f"{q:.2f}"`: fixed two-decimal rendering, no grouping. -/
def fmt_f2 (q : ℚ) : String :=
  if q < 0 then
    let h := (rhe (-q * 100)).toNat
    "-" ++ toString (h / 100) ++ "." ++ pad2 (h % 100)
  else
    let h := (rhe (q * 100)).toNat
    toString (h / 100) ++ "." ++ pad2 (h % 100)

/-- Python `f"{q:,.2f}"`: fixed two decimals with thousands grouping. -/
def fmt_f2c (q : ℚ) : String :=
  if q < 0 then
    let h := (rhe (-q * 100)).toNat
    "-" ++ comma_group (h / 100) ++ "." ++ pad2 (h % 100)
  else
    let h := (rhe (q * 100)).toNat
    comma_group (h / 100) ++ "." ++ pad2 (h % 100)

/-- Python `f"{z:,}"` for an integer. -/
def fmt_int_c (z : ℤ) : String :=
  (if z < 0 then "-" else "") ++ comma_group z.natAbs

/-- Embeds `_format_currency` (nodes.py:232) on its float branch, the one
exercised by the pipeline, where all prices are floats. -/
def format_currency (value : Option ℚ) (currency : String) : String :=
  match value with
  | none => "N/A"
  | some v => currency ++ " " ++ fmt_f2c v

/-- Embeds `_format_market_cap` (nodes.py:240): thresholds trillion,
billion, million tried in that order; below one million the raw integer is
comma-formatted.  `None` renders as `"N/A"`. -/
def format_market_cap (market_cap : Option ℤ) (currency : String) : String :=
  match market_cap with
  | none => "N/A"
  | some mc =>
    if (1000000000000:ℤ) ≤ mc then currency ++ " " ++ fmt_f2 ((mc:ℚ) / 1000000000000) ++ "T"
    else if (1000000000:ℤ) ≤ mc then currency ++ " " ++ fmt_f2 ((mc:ℚ) / 1000000000) ++ "B"
    else if (1000000:ℤ) ≤ mc then currency ++ " " ++ fmt_f2 ((mc:ℚ) / 1000000) ++ "M"
    else currency ++ " " ++ fmt_int_c mc

/-- Embeds `sma` (indicators.py:6):
`series.rolling(window=window, min_periods=window).mean()`.
Position `i` carries the mean of the `window` values ending at `i` when at
least `window` values are available there, and `None` (NaN) otherwise. -/
def sma (series : List ℚ) (window : ℕ) : List (Option ℚ) :=
  (List.range series.length).map (fun i =>
    if window ≤ i + 1 then
      some (((series.drop (i + 1 - window)).take window).sum / (window : ℚ))
    else none)

/-- Pairwise successive differences, `close.diff()` without its leading
NaN: entry `j` is `close[j+1] - close[j]`. -/
def diffs (close : List ℚ) : List ℚ :=
  (close.zip (close.drop 1)).map (fun p => p.2 - p.1)

/-- `delta.clip(lower=0)`. -/
def gains (close : List ℚ) : List ℚ := (diffs close).map (fun d => max d 0)

/-- `-delta.clip(upper=0)`. -/
def losses (close : List ℚ) : List ℚ := (diffs close).map (fun d => max (-d) 0)

/-- Rolling mean of `gains` over `period`, read off at original series
position `i ≥ period` (the window covers diffs `i-period .. i-1`). -/
def avg_gain_at (close : List ℚ) (period i : ℕ) : ℚ :=
  (((gains close).drop (i - period)).take period).sum / (period : ℚ)

/-- Rolling mean of `losses` over `period`, aligned like `avg_gain_at`. -/
def avg_loss_at (close : List ℚ) (period i : ℕ) : ℚ :=
  (((losses close).drop (i - period)).take period).sum / (period : ℚ)

/-- RSI values before the final back-fill (indicators.py:23-31).  Position
`i` is defined iff `i ≥ period` (the diff series loses one observation and
`min_periods=period` demands a full window) and the average loss there is
nonzero (`avg_loss.replace(0, np.nan)` turns a zero average loss into NaN).
The guard `1 ≤ period` records the pandas precondition that a rolling
window is positive. -/
def rsi_raw (close : List ℚ) (period : ℕ) : List (Option ℚ) :=
  (List.range close.length).map (fun i =>
    if 1 ≤ period ∧ period ≤ i then
      if avg_loss_at close period i = 0 then none
      else some (100 - 100 / (1 + avg_gain_at close period i / avg_loss_at close period i))
    else none)

/-- First defined entry of a list of options. -/
def firstSome : List (Option ℚ) → Option ℚ
  | [] => none
  | some v :: _ => some v
  | none :: xs => firstSome xs

/-- pandas `Series.bfill()`: every NaN is replaced by the next defined
value; NaNs after the last defined value remain. -/
def bfill : List (Option ℚ) → List (Option ℚ)
  | [] => []
  | x :: xs => (match x with | some v => some v | none => firstSome xs) :: bfill xs

/-- Embeds `rsi` (indicators.py:13): raw RSI values then `bfill()`. -/
def rsi (close : List ℚ) (period : ℕ) : List (Option ℚ) :=
  bfill (rsi_raw close period)

/-- Quote snapshot, the `stock_info` dict built by `fetch_stock_data`. -/
structure StockInfo where
  symbol : String
  long_name : String
  current_price : Option ℚ
  market_cap : Option ℤ
  currency : String
  last_volume : Option ℤ
  analysis_time : String
deriving DecidableEq

/-- IndicatorSet, the `technical_indicators` dict. -/
structure Tech where
  sma_short : Option ℚ
  sma_long : Option ℚ
  rsi : Option ℚ
  last_close : Option ℚ
  prev_close : Option ℚ
deriving DecidableEq

/-- TrendAssessment, the `trend` dict. -/
structure Trend where
  short_term : String
  price_vs_sma : String
  momentum : String
  notes : String
deriving DecidableEq

/-- `StockAgentState` (state.py).  `errors` is kept as a plain list:
`_ensure_errors` normalises a missing/`None` list to `[]`. -/
structure PipelineState where
  ticker : String
  stock_info : Option StockInfo
  historical_data : Option (List ℚ)
  technical_indicators : Option Tech
  trend : Option Trend
  report : Option String
  is_valid : Option Bool
  errors : List String
deriving DecidableEq

/-- The three terminal decision labels. -/
inductive Decision where
  | BUY
  | SELL
  | HOLD
deriving DecidableEq

def Decision.toStr : Decision → String
  | .BUY => "BUY"
  | .SELL => "SELL"
  | .HOLD => "HOLD"

/-- BUY guard of nodes.py:279: `(current_price > sma10 > sma20) and (30 <= rsi_v <= 70)`. -/
def buy_cond (p s10 s20 r : ℚ) : Bool :=
  decide (s10 < p ∧ s20 < s10 ∧ 30 ≤ r ∧ r ≤ 70)

/-- SELL guard of nodes.py:282: `(current_price < sma20 < sma10) and (rsi_v > 70)`. -/
def sell_cond (p s10 s20 r : ℚ) : Bool :=
  decide (p < s20 ∧ s20 < s10 ∧ 70 < r)

/-- Decision block of `generate_recommendation` (nodes.py:275-289),
returning the decision together with the `reasons` list, with the code's
literal reason strings. -/
def decision_rule (p s10 s20 r : Option ℚ) : Decision × List String :=
  match p, s10, s20, r with
  | some pv, some s10v, some s20v, some rv =>
    if buy_cond pv s10v s20v rv then
      (Decision.BUY, ["price > SMA10 > SMA20 và RSI within 30-70 "])
    else if sell_cond pv s10v s20v rv then
      (Decision.SELL, ["price < SMA20 < SMA10 và RSI > 70 "])
    else
      (Decision.HOLD, ["not qualifify to buy/sale"])
  | _, _, _, _ => (Decision.HOLD, ["Lack of sufficient indicator data to make a decision"])

/-- Trend computation of `analyze_market_trend` (nodes.py:186-228) as a
function of the (possibly missing) IndicatorSet. -/
def trend_calc (tech : Option Tech) : Trend :=
  let price := tech.bind Tech.last_close
  let sma_short_v := tech.bind Tech.sma_short
  let sma_long_v := tech.bind Tech.sma_long
  let rsi_v := tech.bind Tech.rsi
  let prev_close := tech.bind Tech.prev_close
  let short_term : String :=
    match price, sma_short_v, sma_long_v with
    | some p, some ss, some sl =>
      if ss > sl ∧ p > ss then "BULLISH ↗"
      else if ss < sl ∧ p < ss then "BEARISH ↘"
      else "NEUTRAL →"
    | _, _, _ => "NEUTRAL"
  let price_vs : String :=
    match price, sma_short_v, sma_long_v with
    | some p, some ss, some sl =>
      if p > ss ∧ p > sl then "Above both moving averages"
      else if p < ss ∧ p < sl then "Below both moving averages"
      else "center both moving averages"
    | _, _, _ => "Không xác định"
  let momentum : String :=
    match price, prev_close with
    | some p, some pc => if p ≥ pc then "POSITIVE" else "NEGATIVE"
    | _, _ => "NEUTRAL"
  let notes : String :=
    match rsi_v with
    | some r =>
      if r > 70 then "RSI indicates overbought conditions"
      else if r < 30 then "RSI indicates oversale conditions"
      else ""
    | none => ""
  { short_term := short_term, price_vs_sma := price_vs,
    momentum := momentum, notes := notes }

/-- Embeds `analyze_market_trend`: reads only `technical_indicators` and
writes `trend`. -/
def analyze_market_trend (s : PipelineState) : PipelineState :=
  { s with trend := some (trend_calc s.technical_indicators) }

/-- Embeds `route_after_validate` (graph.py:26): truthiness of the
optional boolean `is_valid`. -/
def route_after_validate (s : PipelineState) : String :=
  if s.is_valid = some true then "fetch_stock_data" else "generate_recommendation"

/-- Python `info.get('current_price') or tech.get('last_close')`
(nodes.py:270): a missing or zero (falsy) quoted price falls back to the
last close. -/
def py_or_price (cp lc : Option ℚ) : Option ℚ :=
  match cp with
  | none => lc
  | some x => if x = 0 then lc else some x

/-- Symbol shown in the report: `info.get('symbol') or state.get('ticker', '')`. -/
def rec_symbol (s : PipelineState) : String :=
  match s.stock_info with
  | none => s.ticker
  | some i => if i.symbol = "" then s.ticker else i.symbol

/-- Display name: `info.get('long_name') or symbol`. -/
def rec_long_name (s : PipelineState) : String :=
  match s.stock_info with
  | none => rec_symbol s
  | some i => if i.long_name = "" then rec_symbol s else i.long_name

/-- Effective current price used by the recommendation stage (nodes.py:270). -/
def rec_current_price (s : PipelineState) : Option ℚ :=
  py_or_price (s.stock_info.bind StockInfo.current_price)
    (s.technical_indicators.bind Tech.last_close)

/-- Decision and reasons computed by the recommendation stage. -/
def rec_decision (s : PipelineState) : Decision × List String :=
  decision_rule (rec_current_price s)
    (s.technical_indicators.bind Tech.sma_short)
    (s.technical_indicators.bind Tech.sma_long)
    (s.technical_indicators.bind Tech.rsi)

/-- Currency for formatting: `info.get('currency', 'USD')`. -/
def rec_currency (s : PipelineState) : String :=
  match s.stock_info with
  | none => "USD"
  | some i => i.currency

/-- Timestamp line: `info.get('analysis_time', datetime.now()...)`; the
wall clock is the explicit `now` argument. -/
def rec_analysis_time (now : String) (s : PipelineState) : String :=
  match s.stock_info with
  | none => now
  | some i => i.analysis_time

def eq_bar : String := String.mk (List.replicate 48 '=')

def dash_bar : String := String.mk (List.replicate 20 '-')

/-- The `lines` list built by `generate_recommendation` (nodes.py:297-327),
entry by entry and with the code's literal text. -/
def report_lines (now : String) (s : PipelineState) : List String :=
  let symbol := rec_symbol s
  let long_name := rec_long_name s
  let current_price := rec_current_price s
  let sma10 := s.technical_indicators.bind Tech.sma_short
  let sma20 := s.technical_indicators.bind Tech.sma_long
  let rsi_v := s.technical_indicators.bind Tech.rsi
  let dr := rec_decision s
  let currency := rec_currency s
  let market_cap_fmt := format_market_cap (s.stock_info.bind StockInfo.market_cap) currency
  let current_price_fmt := format_currency current_price currency
  let analysis_time := rec_analysis_time now s
  [eq_bar,
   "Stock Analysis Report",
   eq_bar,
   "stock: " ++ long_name ++ " (" ++ symbol ++ ")",
   "current price: " ++ current_price_fmt,
   "maeket cap: " ++ market_cap_fmt,
   "analysis_time: " ++ analysis_time,
   "",
   "Technical Indicator",
   dash_bar,
   "• SMA 10 days: " ++ format_currency sma10 currency,
   "• SMA 20 day: " ++ format_currency sma20 currency,
   (match rsi_v with
    | some r => "• RSI (14 days): " ++ fmt_f2 r
    | none => "• RSI (14 day): N/A"),
   "",
   "trend analysiss",
   dash_bar,
   "• short trend: " ++ (match s.trend with | some t => t.short_term | none => "N/A"),
   "• Price compared to SMA : " ++ (match s.trend with | some t => t.price_vs_sma | none => "N/A"),
   "• Momentum: " ++ (match s.trend with | some t => t.momentum | none => "N/A")]
  ++ (match s.trend with
      | some t => if t.notes ≠ "" then ["• notes: " ++ t.notes] else []
      | none => [])
  ++ ["",
      "Final Recommendation",
      dash_bar,
      "• decision: " ++ dr.1.toStr]
  ++ (if dr.2 ≠ [] then ["• reason: " ++ join_sep ", " dr.2] else [])
  ++ (if s.errors ≠ [] then ["", "wraning: " ++ join_sep "; " s.errors] else [])

/-- Embeds `generate_recommendation` (nodes.py:254-330).  The invalid
branch fires when `not state.get('is_valid', True)`, i.e. exactly when
`is_valid` is `some false`.  The final report is
`''.join(lines)` — concatenation with the empty separator, exactly as in
the source (nodes.py:329). -/
def generate_recommendation (now : String) (s : PipelineState) : PipelineState :=
  if s.is_valid = some false then
    { s with report := some ("Mã cổ phiếu không hợp lệ: " ++ s.ticker ++ ". Lỗi: "
        ++ join_sep "; " s.errors) }
  else
    { s with report := some (String.join (report_lines now s)) }

/-- Momentum as the specification words it for the claim comparison:
`none` (unset) when either the price or the previous close is missing. -/
def momentum_spec (price prev_close : Option ℚ) : Option String :=
  match price, prev_close with
  | some p, some pc => some (if p ≥ pc then "POSITIVE" else "NEGATIVE")
  | _, _ => none

/-- A fully populated valid pipeline state used to exercise the report
renderer on concrete data. -/
def sampleInfo : StockInfo :=
  { symbol := "AAPL", long_name := "Apple Inc.", current_price := some 100,
    market_cap := some 2500000000, currency := "USD", last_volume := some 1000,
    analysis_time := "2024-01-01 00:00:00" }

def sampleTech : Tech :=
  { sma_short := some 90, sma_long := some 80, rsi := some 50,
    last_close := some 99, prev_close := some 98 }

def sampleTrend : Trend :=
  { short_term := "BULLISH ↗", price_vs_sma := "Above both moving averages",
    momentum := "POSITIVE", notes := "" }

def sampleState : PipelineState :=
  { ticker := "AAPL", is_valid := some true, stock_info := some sampleInfo,
    historical_data := some [], technical_indicators := some sampleTech,
    trend := some sampleTrend, report := none, errors := [] }

/-- Sum of a `window`-length slice as an indexed sum. -/
lemma sum_drop_take (l : List ℚ) : ∀ (w a : ℕ), a + w ≤ l.length →
    ((l.drop a).take w).sum = ∑ j ∈ Finset.range w, l.getD (a + j) 0 := by
  intro w
  induction w with
  | zero => intro a _; simp
  | succ w ih =>
    intro a h
    have ha : a < l.length := by omega
    rw [List.drop_eq_getElem_cons ha, List.take_succ_cons, List.sum_cons,
      ih (a+1) (by omega), Finset.sum_range_succ']
    have he : ∀ j, l.getD (a + 1 + j) 0 = l.getD (a + (j + 1)) 0 := by
      intro j; congr 1; omega
    simp only [he]
    simp only [Nat.add_zero, List.getD_eq_getElem l 0 ha]
    ring

/-- C2: `sma` preserves the length; every position with fewer than
`window` values available is null; every position `i ≥ window − 1` holds
the arithmetic mean of the `window` values ending at `i`. -/
theorem C2_sma_moving_average (series : List ℚ) (w : ℕ) (_hw : 1 ≤ w) :
    (sma series w).length = series.length ∧
    (∀ i, i < series.length → i + 1 < w → (sma series w)[i]? = some none) ∧
    (∀ i, i < series.length → w ≤ i + 1 →
      (sma series w)[i]? =
        some (some ((∑ j ∈ Finset.range w, series.getD (i + 1 - w + j) 0) / (w : ℚ)))) := by
  refine ⟨by simp [sma], ?_, ?_⟩
  · intro i hi hw2
    rw [sma, List.getElem?_map, List.getElem?_range hi]
    simp [Nat.not_le.mpr hw2]
  · intro i hi hw2
    rw [sma, List.getElem?_map, List.getElem?_range hi]
    simp only [Option.map_some', if_pos hw2]
    rw [sum_drop_take series w (i + 1 - w) (by omega)]

/-- Witness for C2 at `series = [1, 2, 3]`, `window = 2`, position 1. -/
theorem C2_sma_moving_average_witness :
    1 ≤ 2 ∧
    (sma [(1:ℚ), 2, 3] 2)[1]? =
      some (some ((∑ j ∈ Finset.range 2, ([(1:ℚ), 2, 3].getD (0 + j) 0)) / (2 : ℚ))) :=
  ⟨by norm_num, (C2_sma_moving_average [1, 2, 3] 2 (by norm_num)).2.2 1 (by norm_num) (by norm_num)⟩

/-- The BUY and SELL guards cannot hold together: BUY requires
`sma10 < price` while SELL requires `price < sma20 < sma10`. -/
lemma buy_sell_exclusive (p s10 s20 r : ℚ) (h : buy_cond p s10 s20 r = true) :
    sell_cond p s10 s20 r = false := by
  rw [buy_cond, decide_eq_true_eq] at h
  rw [sell_cond, decide_eq_false_iff_not]
  rintro ⟨h1, h2, h3⟩
  obtain ⟨g1, g2, g3, g4⟩ := h
  linarith

/-- C6: for every price/average/oscillator tuple the BUY condition and the
SELL condition of the recommendation stage are mutually exclusive, so the
fixed BUY-then-SELL evaluation order cannot change the decision. -/
theorem C6_buy_sell_mutually_exclusive (p s10 s20 r : ℚ)
    (h : buy_cond p s10 s20 r = true) : sell_cond p s10 s20 r = false :=
  buy_sell_exclusive p s10 s20 r h

/-- Witness for C6 at `price = 3`, `sma10 = 2`, `sma20 = 1`, `rsi = 50`. -/
theorem C6_buy_sell_mutually_exclusive_witness :
    buy_cond 3 2 1 50 = true ∧ sell_cond 3 2 1 50 = false :=
  ⟨by with_unfolding_all rfl,
   C6_buy_sell_mutually_exclusive 3 2 1 50 (by with_unfolding_all rfl)⟩

/-- C1 counterexample: with all four indicator inputs null the decision is
HOLD, but the recorded reason is the code's literal string, which is not
the string `"insufficient indicator data"` quoted by the claim. -/
theorem C1_counterexample :
    decision_rule none none none none =
      (Decision.HOLD, ["Lack of sufficient indicator data to make a decision"]) ∧
    "Lack of sufficient indicator data to make a decision" ≠ "insufficient indicator data" :=
  ⟨rfl, by decide⟩

/-- C1 (amended): with all four values present the decision is BUY exactly
when `price > sma10 > sma20` and `30 ≤ rsi ≤ 70`, SELL exactly when
`price < sma20 < sma10` and `rsi > 70`, and HOLD otherwise; when any value
is null the decision is HOLD with the code's reason string
`"Lack of sufficient indicator data to make a decision"`. -/
theorem C1_generate_recommendation_decision :
    (∀ p s10 s20 r : ℚ,
      ((decision_rule (some p) (some s10) (some s20) (some r)).1 = Decision.BUY ↔
        (s10 < p ∧ s20 < s10 ∧ 30 ≤ r ∧ r ≤ 70)) ∧
      ((decision_rule (some p) (some s10) (some s20) (some r)).1 = Decision.SELL ↔
        (p < s20 ∧ s20 < s10 ∧ 70 < r)) ∧
      ((decision_rule (some p) (some s10) (some s20) (some r)).1 = Decision.HOLD ↔
        (¬(s10 < p ∧ s20 < s10 ∧ 30 ≤ r ∧ r ≤ 70) ∧ ¬(p < s20 ∧ s20 < s10 ∧ 70 < r)))) ∧
    (∀ p s10 s20 r : Option ℚ, (p = none ∨ s10 = none ∨ s20 = none ∨ r = none) →
      decision_rule p s10 s20 r =
        (Decision.HOLD, ["Lack of sufficient indicator data to make a decision"])) := by
  constructor
  · intro p s10 s20 r
    by_cases hb : s10 < p ∧ s20 < s10 ∧ 30 ≤ r ∧ r ≤ 70
    · have hb' : buy_cond p s10 s20 r = true := by
        rw [buy_cond, decide_eq_true_eq]; exact hb
      have hs' : sell_cond p s10 s20 r = false := buy_sell_exclusive _ _ _ _ hb'
      have hs : ¬(p < s20 ∧ s20 < s10 ∧ 70 < r) := by
        rw [sell_cond, decide_eq_false_iff_not] at hs'; exact hs'
      simp [decision_rule, hb', hb, hs]
    · have hb' : buy_cond p s10 s20 r = false := by
        rw [buy_cond, decide_eq_false_iff_not]; exact hb
      by_cases hs : p < s20 ∧ s20 < s10 ∧ 70 < r
      · have hs' : sell_cond p s10 s20 r = true := by
          rw [sell_cond, decide_eq_true_eq]; exact hs
        simp [decision_rule, hb', hs', hb, hs]
      · have hs' : sell_cond p s10 s20 r = false := by
          rw [sell_cond, decide_eq_false_iff_not]; exact hs
        simp [decision_rule, hb', hs', hb, hs]
  · rintro p s10 s20 r h
    rcases h with rfl | rfl | rfl | rfl
    · cases s10 <;> cases s20 <;> cases r <;> rfl
    · cases p <;> cases s20 <;> cases r <;> rfl
    · cases p <;> cases s10 <;> cases r <;> rfl
    · cases p <;> cases s10 <;> cases s20 <;> rfl

/-- Witness for C1 with a null oscillator value. -/
theorem C1_generate_recommendation_decision_witness :
    decision_rule (some 10) (some 9) (some 8) none =
      (Decision.HOLD, ["Lack of sufficient indicator data to make a decision"]) :=
  C1_generate_recommendation_decision.2 (some 10) (some 9) (some 8) none
    (Or.inr (Or.inr (Or.inr rfl)))

lemma firstSome_mem {l : List (Option ℚ)} {v : ℚ} (h : firstSome l = some v) :
    some v ∈ l := by
  induction l with
  | nil => simp [firstSome] at h
  | cons x xs ih =>
    cases x with
    | some w => rw [firstSome] at h; exact h ▸ List.mem_cons_self _ _
    | none => rw [firstSome] at h; exact List.mem_cons_of_mem _ (ih h)

/-- Back-filling introduces no new values: every defined entry of
`bfill l` already occurs in `l`. -/
lemma mem_bfill {l : List (Option ℚ)} {v : ℚ} (h : some v ∈ bfill l) :
    some v ∈ l := by
  induction l with
  | nil => simp [bfill] at h
  | cons x xs ih =>
    cases x with
    | some w =>
      rw [show bfill (some w :: xs) = some w :: bfill xs from rfl] at h
      rcases List.mem_cons.mp h with h | h
      · exact List.mem_cons.mpr (Or.inl h)
      · exact List.mem_cons_of_mem _ (ih h)
    | none =>
      rw [show bfill (none :: xs) = firstSome xs :: bfill xs from rfl] at h
      rcases List.mem_cons.mp h with h | h
      · exact List.mem_cons_of_mem _ (firstSome_mem h.symm)
      · exact List.mem_cons_of_mem _ (ih h)

/-- Every defined raw RSI value has the closed form of indicators.py:31
with nonzero average loss. -/
lemma rsi_raw_mem {close : List ℚ} {period : ℕ} {v : ℚ}
    (h : some v ∈ rsi_raw close period) :
    ∃ i, 1 ≤ period ∧ period ≤ i ∧ avg_loss_at close period i ≠ 0 ∧
      v = 100 - 100 / (1 + avg_gain_at close period i / avg_loss_at close period i) := by
  rw [rsi_raw] at h
  obtain ⟨i, _, hi⟩ := List.mem_map.mp h
  by_cases hg : 1 ≤ period ∧ period ≤ i
  · rw [if_pos hg] at hi
    by_cases hz : avg_loss_at close period i = 0
    · rw [if_pos hz] at hi; exact absurd hi (by simp)
    · rw [if_neg hz] at hi
      exact ⟨i, hg.1, hg.2, hz, (Option.some_inj.mp hi).symm⟩
  · rw [if_neg hg] at hi; exact absurd hi (by simp)

lemma avg_gain_at_nonneg (close : List ℚ) (period i : ℕ) :
    0 ≤ avg_gain_at close period i := by
  apply div_nonneg _ (by positivity)
  apply List.sum_nonneg
  intro x hx
  have := List.mem_of_mem_take hx
  have hx' := List.mem_of_mem_drop this
  rw [gains] at hx'
  obtain ⟨d, _, rfl⟩ := List.mem_map.mp hx'
  exact le_max_right d 0

lemma avg_loss_at_nonneg (close : List ℚ) (period i : ℕ) :
    0 ≤ avg_loss_at close period i := by
  apply div_nonneg _ (by positivity)
  apply List.sum_nonneg
  intro x hx
  have := List.mem_of_mem_take hx
  have hx' := List.mem_of_mem_drop this
  rw [losses] at hx'
  obtain ⟨d, _, rfl⟩ := List.mem_map.mp hx'
  exact le_max_right (-d) 0

/-- C4 counterexample: on the strictly falling series `[3, 2, 1]` with
period 2 the oscillator is defined everywhere and equals 0, so a defined
value can reach the endpoint 0, refuting the open interval `(0, 100)`. -/
theorem C4_counterexample : rsi [3, 2, 1] 2 = [some 0, some 0, some 0] := by
  with_unfolding_all rfl

/-- C4 (amended): every defined oscillator value lies in `[0, 100)` — it
can equal 0 (when the average gain is 0) but never 100 nor anything
negative; and a zero average loss makes the raw value undefined rather
than infinite. -/
theorem C4_rsi_range :
    (∀ (close : List ℚ) (period : ℕ) (v : ℚ),
      some v ∈ rsi close period → 0 ≤ v ∧ v < 100) ∧
    (∀ (close : List ℚ) (period i : ℕ), avg_loss_at close period i = 0 →
      (rsi_raw close period).getD i none = none) := by
  constructor
  · intro close period v h
    obtain ⟨i, hp, hpi, hal, rfl⟩ := rsi_raw_mem (mem_bfill h)
    have hg : 0 ≤ avg_gain_at close period i := avg_gain_at_nonneg close period i
    have hl : 0 < avg_loss_at close period i :=
      lt_of_le_of_ne (avg_loss_at_nonneg close period i) (Ne.symm hal)
    have hrs : 0 ≤ avg_gain_at close period i / avg_loss_at close period i :=
      div_nonneg hg hl.le
    have hpos : (0:ℚ) < 1 + avg_gain_at close period i / avg_loss_at close period i := by
      linarith
    constructor
    · have : 100 / (1 + avg_gain_at close period i / avg_loss_at close period i) ≤ 100 := by
        rw [div_le_iff₀ hpos]; nlinarith
      linarith
    · have : 0 < 100 / (1 + avg_gain_at close period i / avg_loss_at close period i) :=
        div_pos (by norm_num) hpos
      linarith
  · intro close period i hal
    rcases Nat.lt_or_ge i close.length with hi | hi
    · rw [rsi_raw, List.getD_eq_getElem?_getD, List.getElem?_map, List.getElem?_range hi]
      by_cases hg : 1 ≤ period ∧ period ≤ i
      · simp [hg, hal]
      · simp [hg]
    · rw [List.getD_eq_default]
      rw [rsi_raw]
      simpa using hi

/-- Witness for C4 on the series `[1, 3, 2]` with period 2, whose
oscillator value `200/3` is defined at every position. -/
theorem C4_rsi_range_witness :
    0 ≤ (200:ℚ)/3 ∧ (200:ℚ)/3 < 100 := by
  have hmem : some ((200:ℚ)/3) ∈ rsi [1, 3, 2] 2 := by
    have h : rsi [1, 3, 2] 2 = [some (200/3), some (200/3), some (200/3)] := by
      with_unfolding_all rfl
    rw [h]
    exact List.mem_cons_self _ _
  exact C4_rsi_range.1 [1, 3, 2] 2 (200/3) hmem

lemma bfill_cons (x : Option ℚ) (xs : List (Option ℚ)) :
    bfill (x :: xs) =
      (match x with | some v => some v | none => firstSome xs) :: bfill xs := rfl

lemma bfill_length (l : List (Option ℚ)) : (bfill l).length = l.length := by
  induction l with
  | nil => rfl
  | cons x xs ih =>
    rw [show bfill (x :: xs) = (match x with | some v => some v | none => firstSome xs) :: bfill xs from rfl]
    simp [ih]

lemma rsi_raw_length (close : List ℚ) (period : ℕ) :
    (rsi_raw close period).length = close.length := by
  simp [rsi_raw]

lemma rsi_length (close : List ℚ) (period : ℕ) :
    (rsi close period).length = close.length := by
  rw [rsi, bfill_length, rsi_raw_length]

lemma firstSome_isSome : ∀ (l : List (Option ℚ)) (j : ℕ), j < l.length →
    (l.getD j none).isSome → (firstSome l).isSome := by
  intro l
  induction l with
  | nil => intro j hj; simp at hj
  | cons x xs ih =>
    intro j hj h
    cases x with
    | some w => simp [firstSome]
    | none =>
      cases j with
      | zero => simp [List.getD_cons_zero] at h
      | succ j =>
        rw [firstSome]
        exact ih j (by simpa using hj) (by simpa using h)

/-- If some entry at or after position `i` is defined, then after
back-filling position `i` is defined. -/
lemma bfill_getD_isSome : ∀ (l : List (Option ℚ)) (i j : ℕ), i ≤ j → j < l.length →
    (l.getD j none).isSome → ((bfill l).getD i none).isSome := by
  intro l
  induction l with
  | nil => intro i j _ hj; simp at hj
  | cons x xs ih =>
    intro i j hij hj h
    rw [bfill_cons]
    cases i with
    | zero =>
      cases x with
      | some w => simp
      | none =>
        cases j with
        | zero => simp [List.getD_cons_zero] at h
        | succ j =>
          have := firstSome_isSome xs j (by simpa using hj) (by simpa using h)
          simpa using this
    | succ i =>
      cases j with
      | zero => omega
      | succ j =>
        have := ih i j (by omega) (by simpa using hj) (by simpa using h)
        simpa using this

/-- The raw RSI entry at the last position is defined once the series has
`period + 1` observations and the final average loss is nonzero. -/
lemma rsi_raw_last (close : List ℚ) (period : ℕ) (hp : 1 ≤ period)
    (hn : period + 1 ≤ close.length)
    (hal : avg_loss_at close period (close.length - 1) ≠ 0) :
    ((rsi_raw close period).getD (close.length - 1) none).isSome := by
  have hi : close.length - 1 < close.length := by omega
  rw [rsi_raw, List.getD_eq_getElem?_getD, List.getElem?_map, List.getElem?_range hi]
  have hg : 1 ≤ period ∧ period ≤ close.length - 1 := ⟨hp, by omega⟩
  simp [hg, hal]

/-- C3 counterexample: the flat series `[1, 1, 1]` has `period + 1 = 3`
observations for period 2, yet every oscillator position is null — the
zero average loss leaves no computed value for the back-fill to copy. -/
theorem C3_counterexample :
    ([(1:ℚ), 1, 1].length = 2 + 1) ∧ rsi [1, 1, 1] 2 = [none, none, none] :=
  ⟨rfl, by with_unfolding_all rfl⟩

/-- C3 (amended): for a series with at least `period + 1` observations
whose average loss over the final window is nonzero, every position of the
oscillator output is defined — leading undefined values are back-filled.
(When every window has zero average loss, as on a flat series, nulls
remain even with enough observations.) -/
theorem C3_rsi_backfill_defined (close : List ℚ) (period : ℕ) (hp : 1 ≤ period)
    (hn : period + 1 ≤ close.length)
    (hal : avg_loss_at close period (close.length - 1) ≠ 0) :
    ∀ i, i < close.length → ((rsi close period).getD i none).isSome := by
  intro i hi
  rw [rsi]
  apply bfill_getD_isSome _ i (close.length - 1) (by omega)
    (by rw [rsi_raw_length]; omega)
  exact rsi_raw_last close period hp hn hal

/-- Witness for C3 on `[2, 1, 3]` with period 2: the first position, which
has insufficient history, is back-filled and defined. -/
theorem C3_rsi_backfill_defined_witness :
    ((rsi [(2:ℚ), 1, 3] 2).getD 0 none).isSome :=
  C3_rsi_backfill_defined [2, 1, 3] 2 (by norm_num)
    (by simp)
    (by
      have h : avg_loss_at [(2:ℚ), 1, 3] 2 (([(2:ℚ), 1, 3].length) - 1) = 1/2 := by
        with_unfolding_all rfl
      rw [h]; norm_num)
    0 (by simp)

/-- C8 counterexample: a market cap of 5,000 is in `[1,000, 1,000,000)`
but is rendered as the comma-grouped integer `"USD 5,000"`, not with a
thousand suffix — the code has no thousand threshold. -/
theorem C8_counterexample :
    format_market_cap (some 5000) "USD" = "USD 5,000" ∧
    ("USD 5,000" : String) ≠ "USD 5.00K" :=
  ⟨by with_unfolding_all rfl, by decide⟩

/-- C8 (amended): the market-cap formatter abbreviates only at the
million, billion and trillion thresholds (largest applicable, two-decimal
precision, currency prefix) — `2,500,000,000` with currency `"USD"`
formats as `"USD 2.50B"`; a value below one million is rendered as the
comma-grouped integer with currency prefix, with no thousand suffix; a
null market cap formats as `"N/A"`. -/
theorem C8_format_market_cap (c : String) (mc : ℤ)
    (h1 : 1000 ≤ mc) (h2 : mc < 1000000) :
    format_market_cap (some mc) c = c ++ " " ++ fmt_int_c mc ∧
    format_market_cap (some 2500000000) "USD" = "USD 2.50B" ∧
    format_market_cap none c = "N/A" := by
  refine ⟨?_, by with_unfolding_all rfl, rfl⟩
  rw [format_market_cap]
  rw [if_neg (by omega), if_neg (by omega), if_neg (by omega)]

/-- Witness for C8 at market cap 5,000 and currency "EUR". -/
theorem C8_format_market_cap_witness :
    (1000:ℤ) ≤ 5000 ∧
    format_market_cap (some 5000) "EUR" = "EUR " ++ fmt_int_c 5000 :=
  ⟨by norm_num, (C8_format_market_cap "EUR" 5000 (by norm_num) (by norm_num)).1⟩

/-- C9 counterexample: with a present price and a null previous close the
code sets momentum to the string `"NEUTRAL"`, whereas the claim demands
momentum be left unset (modelled by `momentum_spec`, which yields `none`
there). -/
theorem C9_counterexample :
    (trend_calc (some ⟨none, none, none, some 5, none⟩)).momentum = "NEUTRAL" ∧
    momentum_spec (some 5) none = none :=
  ⟨rfl, rfl⟩

/-- C9 (amended): momentum is POSITIVE when price ≥ previous close,
NEGATIVE when price < previous close, and set to the default "NEUTRAL"
(rather than left unset) when either is null; short-term direction is
"NEUTRAL" whenever any of price, short-average or long-average is null. -/
theorem C9_trend_momentum (tech : Option Tech) :
    (∀ p pc : ℚ, tech.bind Tech.last_close = some p →
      tech.bind Tech.prev_close = some pc →
      (trend_calc tech).momentum = if pc ≤ p then "POSITIVE" else "NEGATIVE") ∧
    (tech.bind Tech.last_close = none ∨ tech.bind Tech.prev_close = none →
      (trend_calc tech).momentum = "NEUTRAL") ∧
    (tech.bind Tech.last_close = none ∨ tech.bind Tech.sma_short = none ∨
        tech.bind Tech.sma_long = none →
      (trend_calc tech).short_term = "NEUTRAL") := by
  refine ⟨?_, ?_, ?_⟩
  · intro p pc hp hpc
    simp only [trend_calc, hp, hpc]
  · intro h
    cases hx : tech.bind Tech.last_close with
    | none => simp only [trend_calc, hx]
    | some p =>
      cases hy : tech.bind Tech.prev_close with
      | none => simp only [trend_calc, hx, hy]
      | some pc => rw [hx, hy] at h; rcases h with h | h <;> exact absurd h (by simp)
  · intro h
    cases hx : tech.bind Tech.last_close with
    | none =>
      cases hs : tech.bind Tech.sma_short with
      | none => simp only [trend_calc, hx, hs]
      | some a =>
        cases hl : tech.bind Tech.sma_long with
        | none => simp only [trend_calc, hx, hs, hl]
        | some b => simp only [trend_calc, hx, hs, hl]
    | some p =>
      cases hs : tech.bind Tech.sma_short with
      | none => simp only [trend_calc, hx, hs]
      | some a =>
        cases hl : tech.bind Tech.sma_long with
        | none => simp only [trend_calc, hx, hs, hl]
        | some b =>
          rw [hx, hs, hl] at h
          rcases h with h | h | h <;> exact absurd h (by simp)

/-- Witness for C9 with price 5, previous close 3 and null averages. -/
theorem C9_trend_momentum_witness :
    (trend_calc (some ⟨none, none, none, some 5, some 3⟩)).momentum = "POSITIVE" ∧
    (trend_calc (some ⟨none, none, none, some 5, some 3⟩)).short_term = "NEUTRAL" :=
  ⟨((C9_trend_momentum (some ⟨none, none, none, some 5, some 3⟩)).1 5 3 rfl rfl).trans
      (if_pos (by norm_num)),
   (C9_trend_momentum (some ⟨none, none, none, some 5, some 3⟩)).2.2 (Or.inr (Or.inl rfl))⟩

/-- C5: when validation has set `is_valid` to false, the conditional edge
routes straight to the recommendation node (so the fetch, indicator and
trend stages never run), and that node leaves the quote snapshot, price
history, indicator set and trend untouched while producing the minimal
error report of ticker plus the joined accumulated error messages. -/
theorem C5_invalid_short_circuit (s : PipelineState) (now : String)
    (h : s.is_valid = some false) :
    route_after_validate s = "generate_recommendation" ∧
    (generate_recommendation now s).stock_info = s.stock_info ∧
    (generate_recommendation now s).historical_data = s.historical_data ∧
    (generate_recommendation now s).technical_indicators = s.technical_indicators ∧
    (generate_recommendation now s).trend = s.trend ∧
    (generate_recommendation now s).report =
      some ("Mã cổ phiếu không hợp lệ: " ++ s.ticker ++ ". Lỗi: "
        ++ join_sep "; " s.errors) := by
  refine ⟨?_, ?_, ?_, ?_, ?_, ?_⟩ <;>
    simp [route_after_validate, generate_recommendation, h]

/-- Witness for C5 on an invalid state for ticker "XYZ". -/
theorem C5_invalid_short_circuit_witness :
    route_after_validate
        ⟨"XYZ", none, none, none, none, none, some false,
          ["Không tìm thấy mã cổ phiếu: XYZ"]⟩ = "generate_recommendation" ∧
    (generate_recommendation "t"
        ⟨"XYZ", none, none, none, none, none, some false,
          ["Không tìm thấy mã cổ phiếu: XYZ"]⟩).report =
      some "Mã cổ phiếu không hợp lệ: XYZ. Lỗi: Không tìm thấy mã cổ phiếu: XYZ" :=
  ⟨(C5_invalid_short_circuit _ "t" rfl).1,
   ((C5_invalid_short_circuit _ "t" rfl).2.2.2.2.2).trans (by with_unfolding_all rfl)⟩

/-- C10: when the quoted current price is null or exactly 0 (any falsy
value in Python), the recommendation stage substitutes the last close from
the IndicatorSet, both in the decision rule and in the rendered price
line, so a quoted price of exactly 0 is never used. -/
theorem C10_price_fallback (s : PipelineState)
    (h : s.stock_info.bind StockInfo.current_price = none ∨
         s.stock_info.bind StockInfo.current_price = some 0) :
    rec_current_price s = s.technical_indicators.bind Tech.last_close ∧
    rec_decision s = decision_rule (s.technical_indicators.bind Tech.last_close)
      (s.technical_indicators.bind Tech.sma_short)
      (s.technical_indicators.bind Tech.sma_long)
      (s.technical_indicators.bind Tech.rsi) ∧
    (∀ now : String,
      ("current price: " ++
        format_currency (s.technical_indicators.bind Tech.last_close) (rec_currency s)) ∈
        report_lines now s) := by
  have hcp : rec_current_price s = s.technical_indicators.bind Tech.last_close := by
    rcases h with h | h <;> simp [rec_current_price, h, py_or_price]
  refine ⟨hcp, by rw [rec_decision, hcp], ?_⟩
  intro now
  simp [report_lines, hcp]

/-- Witness for C10 on a state whose quoted price is exactly 0 and whose
last close is 42. -/
theorem C10_price_fallback_witness :
    rec_current_price
        ⟨"T", some ⟨"T", "TName", some 0, none, "USD", none, "ts"⟩, none,
          some ⟨some 1, some 2, some 3, some 42, none⟩, none, none, some true, []⟩ =
      some 42 :=
  (C10_price_fallback
      ⟨"T", some ⟨"T", "TName", some 0, none, "USD", none, "ts"⟩, none,
        some ⟨some 1, some 2, some 3, some 42, none⟩, none, none, some true, []⟩
      (Or.inr rfl)).1

set_option maxRecDepth 8000

/-- C7 (code bug): on a fully populated valid state the recommendation
stage builds the report sections as a list of 24 lines but joins them with
the empty separator (nodes.py:329 uses `''.join(lines)`), so the rendered
report contains no newline character at all — its sections do not appear
on separate lines. -/
theorem C7_report_single_line :
    (generate_recommendation "2024-01-01 00:00:00" sampleState).report =
      some (String.join (report_lines "2024-01-01 00:00:00" sampleState)) ∧
    (report_lines "2024-01-01 00:00:00" sampleState).length = 24 ∧
    ((generate_recommendation "2024-01-01 00:00:00" sampleState).report.getD "").data.count
      '\n' = 0 := by
  refine ⟨by with_unfolding_all rfl, by with_unfolding_all rfl, ?_⟩
  with_unfolding_all rfl
